import Mathlib

/-!
Shallow embedding of `src/src/client.ts` (the `FloosakClient` class of the
floosak-payment-js repository) and proofs of the specification claims.

The TypeScript client is a thin stateful wrapper around an HTTP transport:
it holds a read-only configuration (base URL, merchant phone, short code),
a mutable optional bearer token, and exposes five remote operations plus a
token getter.  We model the HTTP transport as an oracle function from the
outgoing request to an `Except`-valued response, and each operation as a
pure function returning the new client state, the list of network requests
actually issued, and the operation's outcome.

JavaScript truthiness matters in two places of the source and is modelled
exactly: `!this.token` (the auth guard and the Authorization interceptor)
treats both an absent token and the empty string as falsy, and
`response.data && response.data.key` only stores the key when `data` is
non-null and `key` is a non-empty string.
-/

/-- `FloosakClientConfig` from `types.ts` as used by the constructor:
base URL, merchant phone, merchant short code and an optional token. -/
structure FloosakClientConfig where
  baseUrl : String
  phone : String
  shortCode : String
  token : Option String
deriving DecidableEq, Repr

/-- The read-only part of the configuration kept on the client
(`Omit<FloosakClientConfig, 'token'>` in `client.ts`). -/
structure ClientCoreConfig where
  baseUrl : String
  phone : String
  shortCode : String
deriving DecidableEq, Repr

/-- State of a `FloosakClient` instance: the read-only `config` field and the
mutable `token` field (`private token?: string`). -/
structure FloosakClient where
  config : ClientCoreConfig
  token : Option String
deriving DecidableEq, Repr

/-- The constructor of `FloosakClient` (lines 23-48 of `client.ts`): copies
`baseUrl`, `phone`, `shortCode` into the read-only config and installs the
initial token.  The axios instance and its interceptor are modelled by
`buildRequest` below, which reads the token state at request-build time
exactly as the interceptor does. -/
def mkClient (cfg : FloosakClientConfig) : FloosakClient :=
  { config := { baseUrl := cfg.baseUrl, phone := cfg.phone, shortCode := cfg.shortCode }
    token := cfg.token }

/-- `getToken()`: returns the stored token, or `none` if not authenticated. -/
def getToken (c : FloosakClient) : Option String :=
  c.token

/-- JavaScript truthiness of the `this.token` field (`string | undefined`):
`undefined` and the empty string are falsy, every other string is truthy.
This is the test both the request interceptor (`if (this.token)`) and
`ensureAuthenticated` (`if (!this.token)`) perform. -/
def tokenTruthy : Option String → Bool
  | none => false
  | some s => !(s == "")

/-- The payload of `requestAuthKey`, built in `client.ts` lines 64-67 from
the stored configuration: `phone` and `short_code`. -/
structure RequestKeyPayload where
  phone : String
  short_code : String
deriving DecidableEq, Repr

/-- Modelled from the spec: `types.ts` is not among the provided sources;
the spec's interface table gives the verify-key request body as
`request_id` plus `otp`. -/
structure VerifyKeyPayload where
  request_id : String
  otp : String
deriving DecidableEq, Repr

/-- Modelled from the spec: `types.ts` is not among the provided sources;
the spec's interface table gives the purchase-request body as
`source_wallet_id`, `request_id`, `target_phone`, `amount`, `purpose`. -/
structure PurchaseRequestPayload where
  source_wallet_id : Int
  request_id : String
  target_phone : String
  amount : Int
  purpose : String
deriving DecidableEq, Repr

/-- Modelled from the spec: `types.ts` is not among the provided sources;
the spec's interface table gives the purchase-confirm body as
`purchase_id` plus the customer's `otp`. -/
structure PurchaseConfirmPayload where
  purchase_id : Int
  otp : Int
deriving DecidableEq, Repr

/-- Modelled from the spec: `types.ts` is not among the provided sources;
the spec's interface table gives the refund body as `transaction_id`,
`request_id`, `amount`. -/
structure RefundPayload where
  transaction_id : Int
  request_id : String
  amount : Int
deriving DecidableEq, Repr

/-- Modelled from the spec: `types.ts` is not among the provided sources;
the spec's interface table gives the request-key response as a record with
a server-assigned `request_id`. -/
structure RequestKeyResponse where
  request_id : String
deriving DecidableEq, Repr

/-- Modelled from the spec: `types.ts` is not among the provided sources;
the spec's interface table gives the verify-key response as a `key` field
(the bearer token, possibly absent) together with further account fields,
modelled as an association list. -/
structure VerifyKeyResponse where
  key : Option String
  account : List (String × String)
deriving DecidableEq, Repr

/-- Modelled from the spec: `types.ts` is not among the provided sources;
the spec's interface table gives the purchase response as a record wrapped
in a `data` field carrying at least the transaction `id`. -/
structure TransactionData where
  id : Int
deriving DecidableEq, Repr

/-- Modelled from the spec: the transaction response wrapper, a `data`
record. -/
structure TransactionResponse where
  data : TransactionData
deriving DecidableEq, Repr

/-- Modelled from the spec: `types.ts` is not among the provided sources;
the refund response is a refund-status record. -/
structure RefundResponse where
  status : String
deriving DecidableEq, Repr

/-- The JSON body of an outgoing request: one constructor per endpoint,
each carrying the typed payload the client serializes. -/
inductive RequestBody where
  | requestKey (p : RequestKeyPayload)
  | verifyKey (p : VerifyKeyPayload)
  | purchase (p : PurchaseRequestPayload)
  | confirm (p : PurchaseConfirmPayload)
  | refundReq (p : RefundPayload)
deriving DecidableEq, Repr

/-- An outgoing HTTP request as the axios instance issues it: base URL,
method, path, headers and JSON body. -/
structure HttpRequest where
  baseUrl : String
  method : String
  path : String
  headers : List (String × String)
  body : RequestBody
deriving DecidableEq, Repr

/-- The fixed headers installed by `axios.create` in the constructor. -/
def baseHeaders : List (String × String) :=
  [("Content-Type", "application/json"),
   ("Accept", "application/json"),
   ("x-channel", "merchant")]

/-- Builds an outgoing POST request exactly as the configured axios
instance does: fixed headers from `axios.create`, plus the request
interceptor that appends `Authorization: Bearer <token>` when the current
token is truthy (present and non-empty). -/
def buildRequest (c : FloosakClient) (path : String) (body : RequestBody) : HttpRequest :=
  { baseUrl := c.config.baseUrl
    method := "POST"
    path := path
    headers :=
      baseHeaders ++
        (match c.token with
         | some t => if t == "" then [] else [("Authorization", "Bearer " ++ t)]
         | none => [])
    body := body }

/-- Errors an operation can surface: the locally raised not-authenticated
`Error` of `ensureAuthenticated`, or an error of the underlying transport
(network failure, non-2xx status, ...), propagated unchanged. -/
inductive FloosakError (ε : Type) where
  | notAuthenticated (msg : String)
  | transport (e : ε)
deriving DecidableEq, Repr

/-- The exact message of the error thrown by `ensureAuthenticated`. -/
def notAuthenticatedMessage : String :=
  "Client is not authenticated. Please call requestAuthKey() and verifyAuthKey() first, or initialize the client with a valid token."

/-- `ensureAuthenticated` (lines 120-126 of `client.ts`): throws the
not-authenticated error when `this.token` is falsy, otherwise returns. -/
def ensureAuthenticated (ε : Type) (c : FloosakClient) : Except (FloosakError ε) Unit :=
  if !(tokenTruthy c.token) then
    Except.error (FloosakError.notAuthenticated notAuthenticatedMessage)
  else
    Except.ok ()

/-- Result of running one client operation: the client state afterwards,
the network requests that were actually handed to the transport, and the
outcome delivered to the caller. -/
structure OpResult (ε α : Type) where
  newClient : FloosakClient
  issued : List HttpRequest
  outcome : Except (FloosakError ε) α

/-- Models `await this.axiosInstance.post(...)` followed by
`return response.data` for the operations that do not inspect the
response: on transport success the data is returned and the client is
untouched, on transport failure the error is propagated unchanged.  In
both cases exactly the one request was issued. -/
def relayOutcome (ε α : Type) (c : FloosakClient) (req : HttpRequest) :
    Except ε α → OpResult ε α
  | Except.ok r => { newClient := c, issued := [req], outcome := Except.ok r }
  | Except.error e => { newClient := c, issued := [req], outcome := Except.error (FloosakError.transport e) }

/-- `requestAuthKey()` (lines 63-70): builds the payload from the stored
phone and short code, POSTs it to `/api/v1/request/key` and returns the
response data.  No auth guard. -/
def requestAuthKey (ε : Type) (transport : HttpRequest → Except ε RequestKeyResponse)
    (c : FloosakClient) : OpResult ε RequestKeyResponse :=
  let payload : RequestKeyPayload := { phone := c.config.phone, short_code := c.config.shortCode }
  let req := buildRequest c "/api/v1/request/key" (RequestBody.requestKey payload)
  relayOutcome ε RequestKeyResponse c req (transport req)

/-- The token update performed by `verifyAuthKey` on a successful response:
`if (response.data && response.data.key) this.token = response.data.key;`.
`data` may be null (modelled by `none`) and `key` may be absent or the
empty string; only a non-null `data` with a truthy (non-empty) `key`
overwrites the token. -/
def applyVerify (c : FloosakClient) (data : Option VerifyKeyResponse) : FloosakClient :=
  match data with
  | some d =>
    match d.key with
    | some k => if k == "" then c else { c with token := some k }
    | none => c
  | none => c

/-- Models `await this.axiosInstance.post(...)` in `verifyAuthKey`: on
success the token-update logic `applyVerify` runs and the full response
data is returned; transport errors are propagated unchanged. -/
def verifyOutcome (ε : Type) (c : FloosakClient) (req : HttpRequest) :
    Except ε (Option VerifyKeyResponse) → OpResult ε (Option VerifyKeyResponse)
  | Except.ok data =>
      { newClient := applyVerify c data, issued := [req], outcome := Except.ok data }
  | Except.error e =>
      { newClient := c, issued := [req], outcome := Except.error (FloosakError.transport e) }

/-- `verifyAuthKey(payload)` (lines 78-84): POSTs the payload to
`/api/v1/verify/key`; on success stores the response's `key` when it is
truthy and returns the full response data; transport errors are propagated
unchanged.  No auth guard. -/
def verifyAuthKey (ε : Type)
    (transport : HttpRequest → Except ε (Option VerifyKeyResponse))
    (c : FloosakClient) (payload : VerifyKeyPayload) :
    OpResult ε (Option VerifyKeyResponse) :=
  let req := buildRequest c "/api/v1/verify/key" (RequestBody.verifyKey payload)
  verifyOutcome ε c req (transport req)

/-- `purchaseRequest(payload)` (lines 92-96): auth guard, then POST the
payload verbatim to `/api/v1/merchant/p2mcl` and return the response
data. -/
def purchaseRequest (ε : Type) (transport : HttpRequest → Except ε TransactionResponse)
    (c : FloosakClient) (payload : PurchaseRequestPayload) : OpResult ε TransactionResponse :=
  match ensureAuthenticated ε c with
  | Except.error e => { newClient := c, issued := [], outcome := Except.error e }
  | Except.ok _ =>
    let req := buildRequest c "/api/v1/merchant/p2mcl" (RequestBody.purchase payload)
    relayOutcome ε TransactionResponse c req (transport req)

/-- `purchaseConfirm(payload)` (lines 103-107): auth guard, then POST the
payload verbatim to `/api/v1/merchant/p2mcl/confirm` and return the
response data. -/
def purchaseConfirm (ε : Type) (transport : HttpRequest → Except ε TransactionResponse)
    (c : FloosakClient) (payload : PurchaseConfirmPayload) : OpResult ε TransactionResponse :=
  match ensureAuthenticated ε c with
  | Except.error e => { newClient := c, issued := [], outcome := Except.error e }
  | Except.ok _ =>
    let req := buildRequest c "/api/v1/merchant/p2mcl/confirm" (RequestBody.confirm payload)
    relayOutcome ε TransactionResponse c req (transport req)

/-- `refund(payload)` (lines 114-118): auth guard, then POST the payload
verbatim to `/api/v1/merchant/p2mcl/refund` and return the response
data. -/
def refund (ε : Type) (transport : HttpRequest → Except ε RefundResponse)
    (c : FloosakClient) (payload : RefundPayload) : OpResult ε RefundResponse :=
  match ensureAuthenticated ε c with
  | Except.error e => { newClient := c, issued := [], outcome := Except.error e }
  | Except.ok _ =>
    let req := buildRequest c "/api/v1/merchant/p2mcl/refund" (RequestBody.refundReq payload)
    relayOutcome ε RefundResponse c req (transport req)

/-- One invocation of a remote operation, for reasoning about arbitrary
operation sequences: each constructor carries the transport oracle used
for that call and the payload. -/
inductive ClientOp (ε : Type) where
  | opRequestKey (t : HttpRequest → Except ε RequestKeyResponse)
  | opVerifyKey (t : HttpRequest → Except ε (Option VerifyKeyResponse)) (p : VerifyKeyPayload)
  | opPurchase (t : HttpRequest → Except ε TransactionResponse) (p : PurchaseRequestPayload)
  | opConfirm (t : HttpRequest → Except ε TransactionResponse) (p : PurchaseConfirmPayload)
  | opRefund (t : HttpRequest → Except ε RefundResponse) (p : RefundPayload)

/-- The client state after one remote operation. -/
def stepClient (ε : Type) (c : FloosakClient) : ClientOp ε → FloosakClient
  | ClientOp.opRequestKey t => (requestAuthKey ε t c).newClient
  | ClientOp.opVerifyKey t p => (verifyAuthKey ε t c p).newClient
  | ClientOp.opPurchase t p => (purchaseRequest ε t c p).newClient
  | ClientOp.opConfirm t p => (purchaseConfirm ε t c p).newClient
  | ClientOp.opRefund t p => (refund ε t c p).newClient

/-- The client state after a sequence of remote operations. -/
def runOps (ε : Type) (c : FloosakClient) : List (ClientOp ε) → FloosakClient
  | [] => c
  | op :: rest => runOps ε (stepClient ε c op) rest

/-- Recognizes the locally raised not-authenticated error among an
operation's possible outcomes. -/
def isNotAuth {ε α : Type} : Except (FloosakError ε) α → Bool
  | Except.error (FloosakError.notAuthenticated _) => true
  | _ => false

/-- The three fixed headers installed by `axios.create` are on the
request. -/
def hasFixedHeaders (req : HttpRequest) : Prop :=
  ("Content-Type", "application/json") ∈ req.headers ∧
  ("Accept", "application/json") ∈ req.headers ∧
  ("x-channel", "merchant") ∈ req.headers

/-- Whenever the token is present (a non-empty string), the request
carries the corresponding bearer Authorization header. -/
def authHeaderOkFor (tok : Option String) (req : HttpRequest) : Prop :=
  ∀ t, tok = some t → t ≠ "" → ("Authorization", "Bearer " ++ t) ∈ req.headers

theorem relayOutcome_newClient (ε α : Type) (c : FloosakClient) (req : HttpRequest)
    (r : Except ε α) : (relayOutcome ε α c req r).newClient = c := by
  cases r <;> rfl

theorem relayOutcome_issued (ε α : Type) (c : FloosakClient) (req : HttpRequest)
    (r : Except ε α) : (relayOutcome ε α c req r).issued = [req] := by
  cases r <;> rfl

theorem relayOutcome_not_notAuth (ε α : Type) (c : FloosakClient) (req : HttpRequest)
    (r : Except ε α) : isNotAuth (relayOutcome ε α c req r).outcome = false := by
  cases r <;> rfl

theorem verifyOutcome_issued (ε : Type) (c : FloosakClient) (req : HttpRequest)
    (r : Except ε (Option VerifyKeyResponse)) : (verifyOutcome ε c req r).issued = [req] := by
  cases r <;> rfl

theorem applyVerify_config (c : FloosakClient) (data : Option VerifyKeyResponse) :
    (applyVerify c data).config = c.config := by
  cases data with
  | none => rfl
  | some d =>
    cases hk : d.key with
    | none => simp [applyVerify, hk]
    | some k =>
      by_cases hke : k == ""
      · simp [applyVerify, hk, hke]
      · simp [applyVerify, hk, hke]

theorem verifyOutcome_config (ε : Type) (c : FloosakClient) (req : HttpRequest)
    (r : Except ε (Option VerifyKeyResponse)) :
    (verifyOutcome ε c req r).newClient.config = c.config := by
  cases r with
  | ok data => exact applyVerify_config c data
  | error e => rfl

theorem ensureAuthenticated_of_truthy (ε : Type) (c : FloosakClient)
    (h : tokenTruthy c.token = true) : ensureAuthenticated ε c = Except.ok () := by
  simp [ensureAuthenticated, h]

theorem ensureAuthenticated_of_falsy (ε : Type) (c : FloosakClient)
    (h : tokenTruthy c.token = false) :
    ensureAuthenticated ε c =
      Except.error (FloosakError.notAuthenticated notAuthenticatedMessage) := by
  simp [ensureAuthenticated, h]

theorem purchaseRequest_of_truthy (ε : Type)
    (t : HttpRequest → Except ε TransactionResponse) (c : FloosakClient)
    (p : PurchaseRequestPayload) (h : tokenTruthy c.token = true) :
    purchaseRequest ε t c p =
      relayOutcome ε TransactionResponse c
        (buildRequest c "/api/v1/merchant/p2mcl" (RequestBody.purchase p))
        (t (buildRequest c "/api/v1/merchant/p2mcl" (RequestBody.purchase p))) := by
  simp only [purchaseRequest, ensureAuthenticated_of_truthy ε c h]

theorem purchaseRequest_of_falsy (ε : Type)
    (t : HttpRequest → Except ε TransactionResponse) (c : FloosakClient)
    (p : PurchaseRequestPayload) (h : tokenTruthy c.token = false) :
    purchaseRequest ε t c p =
      { newClient := c, issued := [],
        outcome := Except.error (FloosakError.notAuthenticated notAuthenticatedMessage) } := by
  simp only [purchaseRequest, ensureAuthenticated_of_falsy ε c h]

theorem purchaseConfirm_of_truthy (ε : Type)
    (t : HttpRequest → Except ε TransactionResponse) (c : FloosakClient)
    (p : PurchaseConfirmPayload) (h : tokenTruthy c.token = true) :
    purchaseConfirm ε t c p =
      relayOutcome ε TransactionResponse c
        (buildRequest c "/api/v1/merchant/p2mcl/confirm" (RequestBody.confirm p))
        (t (buildRequest c "/api/v1/merchant/p2mcl/confirm" (RequestBody.confirm p))) := by
  simp only [purchaseConfirm, ensureAuthenticated_of_truthy ε c h]

theorem purchaseConfirm_of_falsy (ε : Type)
    (t : HttpRequest → Except ε TransactionResponse) (c : FloosakClient)
    (p : PurchaseConfirmPayload) (h : tokenTruthy c.token = false) :
    purchaseConfirm ε t c p =
      { newClient := c, issued := [],
        outcome := Except.error (FloosakError.notAuthenticated notAuthenticatedMessage) } := by
  simp only [purchaseConfirm, ensureAuthenticated_of_falsy ε c h]

theorem refund_of_truthy (ε : Type)
    (t : HttpRequest → Except ε RefundResponse) (c : FloosakClient)
    (p : RefundPayload) (h : tokenTruthy c.token = true) :
    refund ε t c p =
      relayOutcome ε RefundResponse c
        (buildRequest c "/api/v1/merchant/p2mcl/refund" (RequestBody.refundReq p))
        (t (buildRequest c "/api/v1/merchant/p2mcl/refund" (RequestBody.refundReq p))) := by
  simp only [refund, ensureAuthenticated_of_truthy ε c h]

theorem refund_of_falsy (ε : Type)
    (t : HttpRequest → Except ε RefundResponse) (c : FloosakClient)
    (p : RefundPayload) (h : tokenTruthy c.token = false) :
    refund ε t c p =
      { newClient := c, issued := [],
        outcome := Except.error (FloosakError.notAuthenticated notAuthenticatedMessage) } := by
  simp only [refund, ensureAuthenticated_of_falsy ε c h]

theorem requestAuthKey_eq (ε : Type) (t : HttpRequest → Except ε RequestKeyResponse)
    (c : FloosakClient) :
    requestAuthKey ε t c =
      relayOutcome ε RequestKeyResponse c
        (buildRequest c "/api/v1/request/key"
          (RequestBody.requestKey
            { phone := c.config.phone, short_code := c.config.shortCode }))
        (t (buildRequest c "/api/v1/request/key"
          (RequestBody.requestKey
            { phone := c.config.phone, short_code := c.config.shortCode }))) := by
  rfl

theorem verifyAuthKey_eq (ε : Type)
    (t : HttpRequest → Except ε (Option VerifyKeyResponse))
    (c : FloosakClient) (p : VerifyKeyPayload) :
    verifyAuthKey ε t c p =
      verifyOutcome ε c (buildRequest c "/api/v1/verify/key" (RequestBody.verifyKey p))
        (t (buildRequest c "/api/v1/verify/key" (RequestBody.verifyKey p))) := by
  rfl

theorem buildRequest_headers_ok (c : FloosakClient) (path : String) (body : RequestBody) :
    hasFixedHeaders (buildRequest c path body) ∧
      authHeaderOkFor c.token (buildRequest c path body) := by
  constructor
  · refine ⟨?_, ?_, ?_⟩ <;> simp [buildRequest, baseHeaders]
  · intro t ht hne
    simp [buildRequest, baseHeaders, ht, hne]

/-- A sample configuration with the spec's example credentials. -/
def sampleCore : ClientCoreConfig :=
  { baseUrl := "https://api.example.com", phone := "967705111013", shortCode := "777715" }

/-- A client constructed without a token. -/
def clientNoToken : FloosakClient :=
  { config := sampleCore, token := none }

/-- A client constructed with a (non-empty) token. -/
def clientWithToken : FloosakClient :=
  { config := sampleCore, token := some "tok123" }

/-- A client whose token is the empty string. -/
def clientEmptyToken : FloosakClient :=
  { config := sampleCore, token := some "" }

/-- The spec's example purchase payload. -/
def samplePurchase : PurchaseRequestPayload :=
  { source_wallet_id := 144, request_id := "r1", target_phone := "967777841622",
    amount := 100, purpose := "x" }

/-- A sample purchase-confirm payload. -/
def sampleConfirmPayload : PurchaseConfirmPayload :=
  { purchase_id := 7, otp := 123456 }

/-- A sample refund payload. -/
def sampleRefundPayload : RefundPayload :=
  { transaction_id := 267316, request_id := "r2", amount := 100 }

/-- A sample verify-key payload. -/
def sampleVerifyPayload : VerifyKeyPayload :=
  { request_id := "rid1", otp := "123456" }

/-- A transport that answers every purchase POST successfully. -/
def okPurchaseTransport : HttpRequest → Except String TransactionResponse :=
  fun _ => Except.ok { data := { id := 7 } }

/-- A transport that answers every refund POST successfully. -/
def okRefundTransport : HttpRequest → Except String RefundResponse :=
  fun _ => Except.ok { status := "ok" }

/-- A transport that answers every request-key POST successfully. -/
def okRequestKeyTransport : HttpRequest → Except String RequestKeyResponse :=
  fun _ => Except.ok { request_id := "req-9" }

/-- A verify-key transport whose response carries a fresh non-empty key. -/
def verifyTransportNewKey : HttpRequest → Except String (Option VerifyKeyResponse) :=
  fun _ => Except.ok (some { key := some "newtok", account := [] })

/-- A verify-key transport whose response carries an empty-string key. -/
def verifyTransportEmptyKey : HttpRequest → Except String (Option VerifyKeyResponse) :=
  fun _ => Except.ok (some { key := some "", account := [] })

/-- A verify-key transport whose response lacks a key field. -/
def verifyTransportNoKey : HttpRequest → Except String (Option VerifyKeyResponse) :=
  fun _ => Except.ok (some { key := none, account := [("name", "m")] })

/-- C1: each of the three payment operations (purchaseRequest,
purchaseConfirm, refund) raises the not-authenticated error iff no token
is present (absent or empty, i.e. falsy as the source tests it); when no
token is present the error is raised before any network call is issued
(nothing reaches the transport), and when a token is present the network
call is attempted. -/
theorem C1_payment_ops_auth_guard (ε : Type) (c : FloosakClient)
    (t1 : HttpRequest → Except ε TransactionResponse) (p1 : PurchaseRequestPayload)
    (t2 : HttpRequest → Except ε TransactionResponse) (p2 : PurchaseConfirmPayload)
    (t3 : HttpRequest → Except ε RefundResponse) (p3 : RefundPayload) :
    ((isNotAuth (purchaseRequest ε t1 c p1).outcome = true ↔ tokenTruthy c.token = false) ∧
      (tokenTruthy c.token = false → (purchaseRequest ε t1 c p1).issued = []) ∧
      (tokenTruthy c.token = true → (purchaseRequest ε t1 c p1).issued ≠ [])) ∧
    ((isNotAuth (purchaseConfirm ε t2 c p2).outcome = true ↔ tokenTruthy c.token = false) ∧
      (tokenTruthy c.token = false → (purchaseConfirm ε t2 c p2).issued = []) ∧
      (tokenTruthy c.token = true → (purchaseConfirm ε t2 c p2).issued ≠ [])) ∧
    ((isNotAuth (refund ε t3 c p3).outcome = true ↔ tokenTruthy c.token = false) ∧
      (tokenTruthy c.token = false → (refund ε t3 c p3).issued = []) ∧
      (tokenTruthy c.token = true → (refund ε t3 c p3).issued ≠ [])) := by
  cases htok : tokenTruthy c.token with
  | false =>
    simp [purchaseRequest_of_falsy ε t1 c p1 htok,
      purchaseConfirm_of_falsy ε t2 c p2 htok,
      refund_of_falsy ε t3 c p3 htok, isNotAuth]
  | true =>
    simp [purchaseRequest_of_truthy ε t1 c p1 htok,
      purchaseConfirm_of_truthy ε t2 c p2 htok,
      refund_of_truthy ε t3 c p3 htok,
      relayOutcome_not_notAuth, relayOutcome_issued]

/-- Witness for C1: the unauthenticated sample client raises
not-authenticated and issues nothing; the authenticated sample client
issues its network call. -/
theorem C1_payment_ops_auth_guard_witness :
    isNotAuth (purchaseRequest String okPurchaseTransport clientNoToken samplePurchase).outcome = true ∧
    (purchaseRequest String okPurchaseTransport clientNoToken samplePurchase).issued = [] ∧
    (purchaseRequest String okPurchaseTransport clientWithToken samplePurchase).issued ≠ [] := by
  refine ⟨?_, ?_, ?_⟩
  · exact (C1_payment_ops_auth_guard String clientNoToken okPurchaseTransport samplePurchase
      okPurchaseTransport sampleConfirmPayload okRefundTransport sampleRefundPayload).1.1.mpr
      (by decide)
  · exact (C1_payment_ops_auth_guard String clientNoToken okPurchaseTransport samplePurchase
      okPurchaseTransport sampleConfirmPayload okRefundTransport sampleRefundPayload).1.2.1
      (by decide)
  · exact (C1_payment_ops_auth_guard String clientWithToken okPurchaseTransport samplePurchase
      okPurchaseTransport sampleConfirmPayload okRefundTransport sampleRefundPayload).1.2.2
      (by decide)

/-- C4: requestAuthKey has no authentication precondition: for every
client state it issues exactly one POST to /api/v1/request/key whose body
is the stored phone and short code, and when the transport succeeds the
server's response is returned verbatim. -/
theorem C4_requestAuthKey_no_precondition (ε : Type)
    (t : HttpRequest → Except ε RequestKeyResponse) (c : FloosakClient) :
    (requestAuthKey ε t c).issued =
      [buildRequest c "/api/v1/request/key"
        (RequestBody.requestKey { phone := c.config.phone, short_code := c.config.shortCode })] ∧
    (buildRequest c "/api/v1/request/key"
      (RequestBody.requestKey { phone := c.config.phone, short_code := c.config.shortCode })).method
        = "POST" ∧
    (buildRequest c "/api/v1/request/key"
      (RequestBody.requestKey { phone := c.config.phone, short_code := c.config.shortCode })).path
        = "/api/v1/request/key" ∧
    (buildRequest c "/api/v1/request/key"
      (RequestBody.requestKey { phone := c.config.phone, short_code := c.config.shortCode })).body
        = RequestBody.requestKey { phone := c.config.phone, short_code := c.config.shortCode } ∧
    (∀ r, t (buildRequest c "/api/v1/request/key"
        (RequestBody.requestKey { phone := c.config.phone, short_code := c.config.shortCode }))
        = Except.ok r →
      (requestAuthKey ε t c).outcome = Except.ok r) := by
  refine ⟨?_, rfl, rfl, rfl, ?_⟩
  · rw [requestAuthKey_eq]
    exact relayOutcome_issued ε RequestKeyResponse c _ _
  · intro r hr
    rw [requestAuthKey_eq, hr]
    rfl

/-- Witness for C4: on the tokenless sample client, requestAuthKey returns
the sample server response verbatim. -/
theorem C4_requestAuthKey_no_precondition_witness :
    (requestAuthKey String okRequestKeyTransport clientNoToken).outcome =
      Except.ok { request_id := "req-9" } :=
  (C4_requestAuthKey_no_precondition String okRequestKeyTransport clientNoToken).2.2.2.2
    { request_id := "req-9" } rfl

/-- C8: on an authenticated client, purchaseRequest issues exactly one
POST to /api/v1/merchant/p2mcl whose body is the given payload,
unmodified. -/
theorem C8_purchaseRequest_forwards_payload (ε : Type)
    (t : HttpRequest → Except ε TransactionResponse) (c : FloosakClient)
    (p : PurchaseRequestPayload) (h : tokenTruthy c.token = true) :
    (purchaseRequest ε t c p).issued =
      [buildRequest c "/api/v1/merchant/p2mcl" (RequestBody.purchase p)] ∧
    (buildRequest c "/api/v1/merchant/p2mcl" (RequestBody.purchase p)).method = "POST" ∧
    (buildRequest c "/api/v1/merchant/p2mcl" (RequestBody.purchase p)).path
      = "/api/v1/merchant/p2mcl" ∧
    (buildRequest c "/api/v1/merchant/p2mcl" (RequestBody.purchase p)).body
      = RequestBody.purchase p := by
  refine ⟨?_, rfl, rfl, rfl⟩
  rw [purchaseRequest_of_truthy ε t c p h]
  exact relayOutcome_issued ε TransactionResponse c _ _

/-- Witness for C8: the spec's example payload is forwarded verbatim by
the authenticated sample client. -/
theorem C8_purchaseRequest_forwards_payload_witness :
    (purchaseRequest String okPurchaseTransport clientWithToken samplePurchase).issued =
      [buildRequest clientWithToken "/api/v1/merchant/p2mcl"
        (RequestBody.purchase
          { source_wallet_id := 144, request_id := "r1", target_phone := "967777841622",
            amount := 100, purpose := "x" })] :=
  (C8_purchaseRequest_forwards_payload String okPurchaseTransport clientWithToken samplePurchase
    (by decide)).1

/-- C9: a client whose token is the empty string behaves like one with no
token at the public interface: every payment operation raises
not-authenticated before any network call, and no built request carries an
Authorization header (the headers are exactly the three fixed ones). -/
theorem C9_empty_token_like_absent (ε : Type) (c : FloosakClient) (h : c.token = some "")
    (t1 : HttpRequest → Except ε TransactionResponse) (p1 : PurchaseRequestPayload)
    (t2 : HttpRequest → Except ε TransactionResponse) (p2 : PurchaseConfirmPayload)
    (t3 : HttpRequest → Except ε RefundResponse) (p3 : RefundPayload)
    (path : String) (body : RequestBody) :
    isNotAuth (purchaseRequest ε t1 c p1).outcome = true ∧
    (purchaseRequest ε t1 c p1).issued = [] ∧
    isNotAuth (purchaseConfirm ε t2 c p2).outcome = true ∧
    (purchaseConfirm ε t2 c p2).issued = [] ∧
    isNotAuth (refund ε t3 c p3).outcome = true ∧
    (refund ε t3 c p3).issued = [] ∧
    (buildRequest c path body).headers = baseHeaders ∧
    (∀ v, ("Authorization", v) ∉ (buildRequest c path body).headers) := by
  have htok : tokenTruthy c.token = false := by rw [h]; rfl
  have hdr : (buildRequest c path body).headers = baseHeaders := by
    simp [buildRequest, h]
  refine ⟨?_, ?_, ?_, ?_, ?_, ?_, hdr, ?_⟩
  · simp [purchaseRequest_of_falsy ε t1 c p1 htok, isNotAuth]
  · simp [purchaseRequest_of_falsy ε t1 c p1 htok]
  · simp [purchaseConfirm_of_falsy ε t2 c p2 htok, isNotAuth]
  · simp [purchaseConfirm_of_falsy ε t2 c p2 htok]
  · simp [refund_of_falsy ε t3 c p3 htok, isNotAuth]
  · simp [refund_of_falsy ε t3 c p3 htok]
  · intro v hv
    rw [hdr] at hv
    simp [baseHeaders] at hv

/-- Witness for C9: the sample client with empty-string token raises
not-authenticated on purchaseRequest and builds requests whose headers
are exactly the fixed ones. -/
theorem C9_empty_token_like_absent_witness :
    isNotAuth (purchaseRequest String okPurchaseTransport clientEmptyToken samplePurchase).outcome
      = true ∧
    (buildRequest clientEmptyToken "/api/v1/request/key"
      (RequestBody.requestKey { phone := "967705111013", short_code := "777715" })).headers
      = baseHeaders := by
  refine ⟨?_, ?_⟩
  · exact (C9_empty_token_like_absent String clientEmptyToken rfl okPurchaseTransport
      samplePurchase okPurchaseTransport sampleConfirmPayload okRefundTransport
      sampleRefundPayload "/api/v1/request/key"
      (RequestBody.requestKey { phone := "967705111013", short_code := "777715" })).1
  · exact (C9_empty_token_like_absent String clientEmptyToken rfl okPurchaseTransport
      samplePurchase okPurchaseTransport sampleConfirmPayload okRefundTransport
      sampleRefundPayload "/api/v1/request/key"
      (RequestBody.requestKey { phone := "967705111013", short_code := "777715"
        })).2.2.2.2.2.2.1

/-- C2 counterexample: a verify-key response that contains the token field
with the empty string as its value is NOT stored: the prior token is kept,
so getToken afterwards does not return that field's value, refuting the
claim as stated (the source only assigns a truthy key). -/
theorem C2_verifyAuthKey_counterexample :
    (verifyAuthKey String verifyTransportEmptyKey clientWithToken sampleVerifyPayload).outcome
      = Except.ok (some { key := some "", account := [] }) ∧
    getToken (verifyAuthKey String verifyTransportEmptyKey clientWithToken
      sampleVerifyPayload).newClient = some "tok123" ∧
    getToken (verifyAuthKey String verifyTransportEmptyKey clientWithToken
      sampleVerifyPayload).newClient ≠ some "" := by
  refine ⟨rfl, rfl, by decide⟩

/-- C2 (amended): verifyAuthKey stores the response's token field as the
current token (overwriting any prior value) when that field's value is a
non-empty string, so getToken afterwards returns exactly that value; a
response whose token field is the empty string leaves the token unchanged;
and whenever the transport succeeds the full response is returned, whether
or not a token field was present. -/
theorem C2_verifyAuthKey_stores_nonempty_key (ε : Type)
    (t : HttpRequest → Except ε (Option VerifyKeyResponse))
    (c : FloosakClient) (p : VerifyKeyPayload) (d : Option VerifyKeyResponse)
    (hr : t (buildRequest c "/api/v1/verify/key" (RequestBody.verifyKey p)) = Except.ok d) :
    (verifyAuthKey ε t c p).outcome = Except.ok d ∧
    (∀ vd k, d = some vd → vd.key = some k → k ≠ "" →
      getToken (verifyAuthKey ε t c p).newClient = some k) ∧
    (∀ vd, d = some vd → vd.key = some "" →
      getToken (verifyAuthKey ε t c p).newClient = getToken c) := by
  rw [verifyAuthKey_eq, hr]
  refine ⟨rfl, ?_, ?_⟩
  · intro vd k hd hk hne
    subst hd
    simp [verifyOutcome, applyVerify, hk, hne, getToken]
  · intro vd hd hk
    subst hd
    simp [verifyOutcome, applyVerify, hk, getToken]

/-- Witness for the amended C2: a response with key "newtok" overwrites
the prior token "tok123" and getToken returns "newtok", while a response
with an empty-string key leaves getToken at its prior value. -/
theorem C2_verifyAuthKey_stores_nonempty_key_witness :
    getToken (verifyAuthKey String verifyTransportNewKey clientWithToken
      sampleVerifyPayload).newClient = some "newtok" ∧
    getToken (verifyAuthKey String verifyTransportEmptyKey clientWithToken
      sampleVerifyPayload).newClient = getToken clientWithToken := by
  refine ⟨?_, ?_⟩
  · exact (C2_verifyAuthKey_stores_nonempty_key String verifyTransportNewKey clientWithToken
      sampleVerifyPayload (some { key := some "newtok", account := [] }) rfl).2.1
      { key := some "newtok", account := [] } "newtok" rfl rfl (by decide)
  · exact (C2_verifyAuthKey_stores_nonempty_key String verifyTransportEmptyKey clientWithToken
      sampleVerifyPayload (some { key := some "", account := [] }) rfl).2.2
      { key := some "", account := [] } rfl rfl

/-- C3: a verify-key response lacking a token field (null response data,
or a response record without a key) leaves the client's token unchanged:
getToken returns the same value after the call as before it. -/
theorem C3_verifyAuthKey_no_key_unchanged (ε : Type)
    (t : HttpRequest → Except ε (Option VerifyKeyResponse))
    (c : FloosakClient) (p : VerifyKeyPayload) (d : Option VerifyKeyResponse)
    (hr : t (buildRequest c "/api/v1/verify/key" (RequestBody.verifyKey p)) = Except.ok d)
    (hk : ∀ vd, d = some vd → vd.key = none) :
    getToken (verifyAuthKey ε t c p).newClient = getToken c := by
  rw [verifyAuthKey_eq, hr]
  cases d with
  | none => rfl
  | some vd =>
    have hkey := hk vd rfl
    simp [verifyOutcome, applyVerify, hkey, getToken]

/-- Witness for C3: a keyless response leaves the sample client's token
untouched. -/
theorem C3_verifyAuthKey_no_key_unchanged_witness :
    getToken (verifyAuthKey String verifyTransportNoKey clientWithToken
      sampleVerifyPayload).newClient = getToken clientWithToken :=
  C3_verifyAuthKey_no_key_unchanged String verifyTransportNoKey clientWithToken
    sampleVerifyPayload (some { key := none, account := [("name", "m")] }) rfl
    (by intro vd h; injection h with h2; subst h2; rfl)

theorem requestAuthKey_newClient (ε : Type) (t : HttpRequest → Except ε RequestKeyResponse)
    (c : FloosakClient) : (requestAuthKey ε t c).newClient = c := by
  rw [requestAuthKey_eq]
  exact relayOutcome_newClient ε RequestKeyResponse c _ _

theorem purchaseRequest_newClient (ε : Type)
    (t : HttpRequest → Except ε TransactionResponse) (c : FloosakClient)
    (p : PurchaseRequestPayload) : (purchaseRequest ε t c p).newClient = c := by
  cases htok : tokenTruthy c.token with
  | false => rw [purchaseRequest_of_falsy ε t c p htok]
  | true =>
    rw [purchaseRequest_of_truthy ε t c p htok]
    exact relayOutcome_newClient ε TransactionResponse c _ _

theorem purchaseConfirm_newClient (ε : Type)
    (t : HttpRequest → Except ε TransactionResponse) (c : FloosakClient)
    (p : PurchaseConfirmPayload) : (purchaseConfirm ε t c p).newClient = c := by
  cases htok : tokenTruthy c.token with
  | false => rw [purchaseConfirm_of_falsy ε t c p htok]
  | true =>
    rw [purchaseConfirm_of_truthy ε t c p htok]
    exact relayOutcome_newClient ε TransactionResponse c _ _

theorem refund_newClient (ε : Type)
    (t : HttpRequest → Except ε RefundResponse) (c : FloosakClient)
    (p : RefundPayload) : (refund ε t c p).newClient = c := by
  cases htok : tokenTruthy c.token with
  | false => rw [refund_of_falsy ε t c p htok]
  | true =>
    rw [refund_of_truthy ε t c p htok]
    exact relayOutcome_newClient ε RefundResponse c _ _

theorem applyVerify_preserves_truthy (c : FloosakClient) (d : Option VerifyKeyResponse)
    (h : tokenTruthy c.token = true) : tokenTruthy (applyVerify c d).token = true := by
  cases d with
  | none => exact h
  | some vd =>
    cases hk : vd.key with
    | none => simpa [applyVerify, hk] using h
    | some k =>
      by_cases hke : k == ""
      · simpa [applyVerify, hk, hke] using h
      · simp [applyVerify, hk, hke, tokenTruthy]

theorem verifyOutcome_preserves_truthy (ε : Type) (c : FloosakClient) (req : HttpRequest)
    (r : Except ε (Option VerifyKeyResponse)) (h : tokenTruthy c.token = true) :
    tokenTruthy (verifyOutcome ε c req r).newClient.token = true := by
  cases r with
  | ok d => exact applyVerify_preserves_truthy c d h
  | error e => exact h

theorem stepClient_preserves_truthy (ε : Type) (c : FloosakClient) (op : ClientOp ε)
    (h : tokenTruthy c.token = true) : tokenTruthy (stepClient ε c op).token = true := by
  cases op with
  | opRequestKey t =>
    simp only [stepClient, requestAuthKey_newClient]
    exact h
  | opVerifyKey t p =>
    simp only [stepClient, verifyAuthKey_eq]
    exact verifyOutcome_preserves_truthy ε c _ _ h
  | opPurchase t p =>
    simp only [stepClient, purchaseRequest_newClient]
    exact h
  | opConfirm t p =>
    simp only [stepClient, purchaseConfirm_newClient]
    exact h
  | opRefund t p =>
    simp only [stepClient, refund_newClient]
    exact h

theorem stepClient_config (ε : Type) (c : FloosakClient) (op : ClientOp ε) :
    (stepClient ε c op).config = c.config := by
  cases op with
  | opRequestKey t => simp only [stepClient, requestAuthKey_newClient]
  | opVerifyKey t p =>
    simp only [stepClient, verifyAuthKey_eq]
    exact verifyOutcome_config ε c _ _
  | opPurchase t p => simp only [stepClient, purchaseRequest_newClient]
  | opConfirm t p => simp only [stepClient, purchaseConfirm_newClient]
  | opRefund t p => simp only [stepClient, refund_newClient]

theorem runOps_config (ε : Type) (c : FloosakClient) (ops : List (ClientOp ε)) :
    (runOps ε c ops).config = c.config := by
  induction ops generalizing c with
  | nil => rfl
  | cons op rest ih =>
    rw [runOps, ih (stepClient ε c op), stepClient_config]

/-- C5: every request issued by any of the five remote operations carries
the content-type, accept and merchant-channel headers regardless of auth
state, and whenever the token is present (a non-empty string) at the time
the request is built, the request also carries the bearer Authorization
header with that token value. -/
theorem C5_outgoing_request_headers (ε : Type) (c : FloosakClient)
    (t1 : HttpRequest → Except ε RequestKeyResponse)
    (t2 : HttpRequest → Except ε (Option VerifyKeyResponse)) (p2 : VerifyKeyPayload)
    (t3 : HttpRequest → Except ε TransactionResponse) (p3 : PurchaseRequestPayload)
    (t4 : HttpRequest → Except ε TransactionResponse) (p4 : PurchaseConfirmPayload)
    (t5 : HttpRequest → Except ε RefundResponse) (p5 : RefundPayload) :
    (∀ req ∈ (requestAuthKey ε t1 c).issued,
      hasFixedHeaders req ∧ authHeaderOkFor c.token req) ∧
    (∀ req ∈ (verifyAuthKey ε t2 c p2).issued,
      hasFixedHeaders req ∧ authHeaderOkFor c.token req) ∧
    (∀ req ∈ (purchaseRequest ε t3 c p3).issued,
      hasFixedHeaders req ∧ authHeaderOkFor c.token req) ∧
    (∀ req ∈ (purchaseConfirm ε t4 c p4).issued,
      hasFixedHeaders req ∧ authHeaderOkFor c.token req) ∧
    (∀ req ∈ (refund ε t5 c p5).issued,
      hasFixedHeaders req ∧ authHeaderOkFor c.token req) := by
  refine ⟨?_, ?_, ?_, ?_, ?_⟩
  · intro req hreq
    rw [requestAuthKey_eq, relayOutcome_issued] at hreq
    simp at hreq
    subst hreq
    exact buildRequest_headers_ok c _ _
  · intro req hreq
    rw [verifyAuthKey_eq, verifyOutcome_issued] at hreq
    simp at hreq
    subst hreq
    exact buildRequest_headers_ok c _ _
  · intro req hreq
    cases htok : tokenTruthy c.token with
    | false =>
      rw [purchaseRequest_of_falsy ε t3 c p3 htok] at hreq
      simp at hreq
    | true =>
      rw [purchaseRequest_of_truthy ε t3 c p3 htok, relayOutcome_issued] at hreq
      simp at hreq
      subst hreq
      exact buildRequest_headers_ok c _ _
  · intro req hreq
    cases htok : tokenTruthy c.token with
    | false =>
      rw [purchaseConfirm_of_falsy ε t4 c p4 htok] at hreq
      simp at hreq
    | true =>
      rw [purchaseConfirm_of_truthy ε t4 c p4 htok, relayOutcome_issued] at hreq
      simp at hreq
      subst hreq
      exact buildRequest_headers_ok c _ _
  · intro req hreq
    cases htok : tokenTruthy c.token with
    | false =>
      rw [refund_of_falsy ε t5 c p5 htok] at hreq
      simp at hreq
    | true =>
      rw [refund_of_truthy ε t5 c p5 htok, relayOutcome_issued] at hreq
      simp at hreq
      subst hreq
      exact buildRequest_headers_ok c _ _

/-- Witness for C5: the authenticated sample client's purchase request
carries the three fixed headers and the bearer Authorization header. -/
theorem C5_outgoing_request_headers_witness :
    hasFixedHeaders (buildRequest clientWithToken "/api/v1/merchant/p2mcl"
      (RequestBody.purchase samplePurchase)) ∧
    ("Authorization", "Bearer " ++ "tok123") ∈
      (buildRequest clientWithToken "/api/v1/merchant/p2mcl"
        (RequestBody.purchase samplePurchase)).headers := by
  have h := (C5_outgoing_request_headers String clientWithToken okRequestKeyTransport
      verifyTransportNewKey sampleVerifyPayload okPurchaseTransport samplePurchase
      okPurchaseTransport sampleConfirmPayload okRefundTransport sampleRefundPayload).2.2.1
      (buildRequest clientWithToken "/api/v1/merchant/p2mcl" (RequestBody.purchase samplePurchase))
      (by decide)
  exact ⟨h.1, h.2 "tok123" rfl (by decide)⟩

/-- A request-key transport that fails every call. -/
def failRequestKeyTransport : HttpRequest → Except String RequestKeyResponse :=
  fun _ => Except.error "boom"

/-- A verify-key transport that fails every call. -/
def failVerifyTransport : HttpRequest → Except String (Option VerifyKeyResponse) :=
  fun _ => Except.error "boom"

/-- A purchase transport that fails every call. -/
def failPurchaseTransport : HttpRequest → Except String TransactionResponse :=
  fun _ => Except.error "boom"

/-- A refund transport that fails every call. -/
def failRefundTransport : HttpRequest → Except String RefundResponse :=
  fun _ => Except.error "boom"

/-- C6: when the underlying HTTP call fails, every operation propagates
that exact error to the caller unchanged (as a transport error, with no
translation and no retry) and leaves the client state, token and
configuration alike, exactly as it was.  requestAuthKey and verifyAuthKey
are guard-free, so this holds for them in every client state; for the
three payment operations the HTTP call is reached exactly when a token is
present, and their state is unchanged in every client state. -/
theorem C6_transport_error_propagation (ε : Type) (c : FloosakClient) (e : ε)
    (t1 : HttpRequest → Except ε RequestKeyResponse)
    (h1 : ∀ req, t1 req = Except.error e)
    (t2 : HttpRequest → Except ε (Option VerifyKeyResponse))
    (h2 : ∀ req, t2 req = Except.error e) (p2 : VerifyKeyPayload)
    (t3 : HttpRequest → Except ε TransactionResponse)
    (h3 : ∀ req, t3 req = Except.error e) (p3 : PurchaseRequestPayload)
    (t4 : HttpRequest → Except ε TransactionResponse)
    (h4 : ∀ req, t4 req = Except.error e) (p4 : PurchaseConfirmPayload)
    (t5 : HttpRequest → Except ε RefundResponse)
    (h5 : ∀ req, t5 req = Except.error e) (p5 : RefundPayload) :
    (requestAuthKey ε t1 c).outcome = Except.error (FloosakError.transport e) ∧
    (requestAuthKey ε t1 c).newClient = c ∧
    (verifyAuthKey ε t2 c p2).outcome = Except.error (FloosakError.transport e) ∧
    (verifyAuthKey ε t2 c p2).newClient = c ∧
    (tokenTruthy c.token = true →
      (purchaseRequest ε t3 c p3).outcome = Except.error (FloosakError.transport e)) ∧
    (purchaseRequest ε t3 c p3).newClient = c ∧
    (tokenTruthy c.token = true →
      (purchaseConfirm ε t4 c p4).outcome = Except.error (FloosakError.transport e)) ∧
    (purchaseConfirm ε t4 c p4).newClient = c ∧
    (tokenTruthy c.token = true →
      (refund ε t5 c p5).outcome = Except.error (FloosakError.transport e)) ∧
    (refund ε t5 c p5).newClient = c := by
  rw [requestAuthKey_eq, h1, verifyAuthKey_eq, h2]
  refine ⟨rfl, rfl, rfl, rfl, ?_, purchaseRequest_newClient ε t3 c p3, ?_,
    purchaseConfirm_newClient ε t4 c p4, ?_, refund_newClient ε t5 c p5⟩
  · intro htok
    rw [purchaseRequest_of_truthy ε t3 c p3 htok, h3]
    rfl
  · intro htok
    rw [purchaseConfirm_of_truthy ε t4 c p4 htok, h4]
    rfl
  · intro htok
    rw [refund_of_truthy ε t5 c p5 htok, h5]
    rfl

/-- Witness for C6: a transport failing with "boom" surfaces exactly that
error from requestAuthKey on the unauthenticated sample client, leaves
that client unchanged after verifyAuthKey, and surfaces the same error
from purchaseRequest on the authenticated sample client. -/
theorem C6_transport_error_propagation_witness :
    (requestAuthKey String failRequestKeyTransport clientNoToken).outcome
      = Except.error (FloosakError.transport "boom") ∧
    (verifyAuthKey String failVerifyTransport clientNoToken sampleVerifyPayload).newClient
      = clientNoToken ∧
    (purchaseRequest String failPurchaseTransport clientWithToken samplePurchase).outcome
      = Except.error (FloosakError.transport "boom") := by
  have hNo := C6_transport_error_propagation String clientNoToken "boom"
    failRequestKeyTransport (fun _ => rfl)
    failVerifyTransport (fun _ => rfl) sampleVerifyPayload
    failPurchaseTransport (fun _ => rfl) samplePurchase
    failPurchaseTransport (fun _ => rfl) sampleConfirmPayload
    failRefundTransport (fun _ => rfl) sampleRefundPayload
  have hWith := C6_transport_error_propagation String clientWithToken "boom"
    failRequestKeyTransport (fun _ => rfl)
    failVerifyTransport (fun _ => rfl) sampleVerifyPayload
    failPurchaseTransport (fun _ => rfl) samplePurchase
    failPurchaseTransport (fun _ => rfl) sampleConfirmPayload
    failRefundTransport (fun _ => rfl) sampleRefundPayload
  exact ⟨hNo.1, hNo.2.2.2.1, hWith.2.2.2.2.1 (by decide)⟩

/-- C7: over every sequence of remote operations on a constructed client,
the baseUrl, phone and shortCode configuration fields are never modified;
the token is the only mutable part of the client state. -/
theorem C7_config_immutable (ε : Type) (cfg : FloosakClientConfig)
    (ops : List (ClientOp ε)) :
    (runOps ε (mkClient cfg) ops).config.baseUrl = cfg.baseUrl ∧
    (runOps ε (mkClient cfg) ops).config.phone = cfg.phone ∧
    (runOps ε (mkClient cfg) ops).config.shortCode = cfg.shortCode := by
  rw [runOps_config ε (mkClient cfg) ops]
  exact ⟨rfl, rfl, rfl⟩

/-- C10: once the token is a non-empty string, it stays a non-empty
string across every sequence of operations: no operation clears it, and
verifyAuthKey only overwrites it with a non-empty key. -/
theorem C10_token_nonempty_invariant (ε : Type) (c : FloosakClient)
    (ops : List (ClientOp ε)) (h : tokenTruthy c.token = true) :
    tokenTruthy (runOps ε c ops).token = true := by
  induction ops generalizing c with
  | nil => exact h
  | cons op rest ih =>
    rw [runOps]
    exact ih (stepClient ε c op) (stepClient_preserves_truthy ε c op h)

/-- Witness for C10: the invariant holds across a run containing an
empty-key verify, a purchase, and a fresh-key verify. -/
theorem C10_token_nonempty_invariant_witness :
    tokenTruthy (runOps String clientWithToken
      [ClientOp.opVerifyKey verifyTransportEmptyKey sampleVerifyPayload,
        ClientOp.opPurchase okPurchaseTransport samplePurchase,
        ClientOp.opVerifyKey verifyTransportNewKey sampleVerifyPayload]).token = true :=
  C10_token_nonempty_invariant String clientWithToken
    [ClientOp.opVerifyKey verifyTransportEmptyKey sampleVerifyPayload,
      ClientOp.opPurchase okPurchaseTransport samplePurchase,
      ClientOp.opVerifyKey verifyTransportNewKey sampleVerifyPayload]
    (by decide)
